import Mathlib

/-!
Verification of the cross-device-cart integration layer: the GraphQL
response normalizer `throwOnGraphQLErrors`, the three checkout call
wrappers (`getOrderFormItems`, `getOrderForm`, `updateCart`) from
`src/node/clients/checkout/index.ts`, and the key-value resolver
`getXCart` from `src/node/resolvers/getXCart.ts`.

GraphQL error entries and the payload shapes (item types, order-form
shapes, item inputs) are declared outside the repository (`@vtex/api`,
`vtex.checkout-graphql`), and the normalizer and wrappers never inspect
them field by field, so they are modelled as type parameters; small
concrete structures are provided afterwards to instantiate scenarios.
-/

namespace CrossDeviceCart

/-- Shape of a GraphQL transport response (`GraphQLResponse<T>` from
the platform SDK): an optional payload and an optional sequence of
error entries of an opaque type `E`. -/
structure GraphQLResponse (E T : Type) where
  data : Option T
  errors : Option (List E)
deriving DecidableEq

/-- Embeds `CustomGraphQLError` (src/node/clients/checkout/index.ts,
lines 16-23): an error carrying a human message and the original
GraphQL error list verbatim. -/
structure CustomGraphQLError (E : Type) where
  message : String
  graphQLErrors : List E
deriving DecidableEq

/-- Embeds `throwOnGraphQLErrors` (src/node/clients/checkout/index.ts,
lines 25-33). The inner closure `maybeGraphQLResponse` receives a
possibly-null response; if the response is truthy and carries a
non-empty `errors` array it throws `CustomGraphQLError(message,
response.errors)`, otherwise it returns the response unchanged. A JS
empty array is truthy, so the guard reduces to `errors.length > 0`.
Throwing is modelled by `Except.error`. -/
def throwOnGraphQLErrors {E T : Type} (message : String)
    (response : Option (GraphQLResponse E T)) :
    Except (CustomGraphQLError E) (Option (GraphQLResponse E T)) :=
  match response with
  | some r =>
      match r.errors with
      | some errs =>
          if errs.length > 0 then
            Except.error ⟨message, errs⟩
          else
            Except.ok (some r)
      | none => Except.ok (some r)
  | none => Except.ok none

/-- Failure outcomes of a checkout call wrapper: either the
`CustomGraphQLError` thrown by the normalizer, or the runtime
`TypeError` raised when the projection step dereferences a null
response or an absent `data` field (the `query.data!.orderForm`
access). -/
inductive WrapperError (E : Type) where
  | graphQL (err : CustomGraphQLError E)
  | typeError
deriving DecidableEq

/-- Shape `{ orderForm: F }` of the `data` payload of the checkout
queries and of the mutation result. -/
structure OrderFormData (F : Type) where
  orderForm : F
deriving DecidableEq

/-- Shape `{ items: I[] }` of the order-form field returned by the
items query (`PartialOrderFormItems` projects to `orderForm.items`). -/
structure ItemsField (I : Type) where
  items : List I
deriving DecidableEq

/-- Variables object `{ orderFormId }` sent with the two queries. -/
structure QueryVars where
  orderFormId : String
deriving DecidableEq

/-- Variables object `{ orderFormId, items }` sent with the update
mutation; item inputs are of an opaque type `J`, forwarded verbatim. -/
structure UpdateCartVars (J : Type) where
  orderFormId : String
  items : List J
deriving DecidableEq

/-- Context message of `getOrderFormItems` (line 70 of the client). -/
def getOrderFormItemsMessage : String :=
  "Error getting items data from vtex.checkout-graphql"

/-- Context message of `getOrderForm` (line 104 of the client). -/
def getOrderFormMessage : String :=
  "Error getting data from vtex.checkout-graphql"

/-- Context message of `updateCart` (line 138 of the client). -/
def updateCartMessage : String :=
  "Error updating items with vtex.checkout-graphql"

/-- Metric tag of the two query wrappers (lines 65 and 100). -/
def checkoutOrderformMetric : String := "checkout-orderform"

/-- Metric tag of the update wrapper (line 134). -/
def checkoutUpdateItemsMetric : String := "checkout-update-items"

/-- Embeds `getOrderFormItems` (src/node/clients/checkout/index.ts,
lines 53-78). The transport capability `query` is a parameter taking
the variables and the metric tag; its settled response is passed
through the normalizer with the items context message and then
projected via `query.data!.orderForm.items`, where a null response or
absent `data` raises a TypeError. -/
def getOrderFormItems {E I : Type}
    (query : QueryVars → String → Option (GraphQLResponse E (OrderFormData (ItemsField I))))
    (orderFormId : String) : Except (WrapperError E) (List I) :=
  match throwOnGraphQLErrors getOrderFormItemsMessage
      (query ⟨orderFormId⟩ checkoutOrderformMetric) with
  | Except.error e => Except.error (WrapperError.graphQL e)
  | Except.ok none => Except.error WrapperError.typeError
  | Except.ok (some q) =>
      match q.data with
      | some d => Except.ok d.orderForm.items
      | none => Except.error WrapperError.typeError

/-- Embeds `getOrderForm` (src/node/clients/checkout/index.ts, lines
88-111): same shape as the items wrapper but projecting
`query.data!.orderForm` with its own context message. -/
def getOrderForm {E F : Type}
    (query : QueryVars → String → Option (GraphQLResponse E (OrderFormData F)))
    (orderFormId : String) : Except (WrapperError E) F :=
  match throwOnGraphQLErrors getOrderFormMessage
      (query ⟨orderFormId⟩ checkoutOrderformMetric) with
  | Except.error e => Except.error (WrapperError.graphQL e)
  | Except.ok none => Except.error WrapperError.typeError
  | Except.ok (some q) =>
      match q.data with
      | some d => Except.ok d.orderForm
      | none => Except.error WrapperError.typeError

/-- Embeds `updateCart` (src/node/clients/checkout/index.ts, lines
120-145): invokes the mutation transport with `{orderFormId, items}`
and the update metric tag, normalizes with the update context message,
and projects `query.data!.orderForm`. -/
def updateCart {E F J : Type}
    (mutate : UpdateCartVars J → String → Option (GraphQLResponse E (OrderFormData F)))
    (orderFormId : String) (items : List J) : Except (WrapperError E) F :=
  match throwOnGraphQLErrors updateCartMessage
      (mutate ⟨orderFormId, items⟩ checkoutUpdateItemsMetric) with
  | Except.error e => Except.error (WrapperError.graphQL e)
  | Except.ok none => Except.error WrapperError.typeError
  | Except.ok (some q) =>
      match q.data with
      | some d => Except.ok d.orderForm
      | none => Except.error WrapperError.typeError

/-- Shape of the optional `response` field probed on a store failure:
`err?.response?.status`, an HTTP-like status that may be absent. -/
structure StoreErrorResponse where
  status : Option Nat
deriving DecidableEq

/-- Failure value thrown by the key-value capability `getJSON`; it may
carry an embedded `{ response: { status } }` (getXCart.ts line 24). -/
structure StoreError where
  response : Option StoreErrorResponse
deriving DecidableEq

/-- The optional-chaining probe `(err as any)?.response?.status`
(src/node/resolvers/getXCart.ts, line 24). -/
def embeddedStatus (err : StoreError) : Option Nat :=
  err.response.bind StoreErrorResponse.status

/-- Value shape `{ orderformId: string | null }` requested from the
key-value store (src/node/resolvers/getXCart.ts, lines 12-14). -/
structure XCartValue where
  orderformId : Option String
deriving DecidableEq

/-- Fixed namespace string passed to `getJSON` (getXCart.ts line 14). -/
def crossDeviceCartBucket : String := "vtex.cross-device-cart"

/-- Embeds `getXCart` (src/node/resolvers/getXCart.ts). The key-value
capability `getJSON` is a parameter taking namespace, key and the
parse-as-JSON flag; it either yields the deserialized value or throws a
`StoreError`. On success the value is returned as-is; on failure, a
probed status of exactly 404 yields the JS `null` (modelled `none`) and
any other failure is re-thrown unchanged. The `console.log` calls are
observability only and have no result-relevant effect. -/
def getXCart (getJSON : String → String → Bool → Except StoreError XCartValue)
    (userId : String) : Except StoreError (Option XCartValue) :=
  match getJSON crossDeviceCartBucket userId true with
  | Except.ok orderformId => Except.ok (some orderformId)
  | Except.error err =>
      if embeddedStatus err = some 404 then
        Except.ok none
      else
        Except.error err

/-- Concrete GraphQL error entry used to instantiate scenarios; the
normalizer treats entries as opaque. -/
structure GraphQLError where
  message : String
deriving DecidableEq

/-- Concrete item shape used to instantiate scenarios. -/
structure PartialItem where
  id : String
deriving DecidableEq

/-- Concrete item-input shape `{id, quantity}` used to instantiate the
update-cart scenario. -/
structure ItemInput where
  id : Option String
  quantity : Option Nat
deriving DecidableEq

/-- Transport fixture for the items-query success scenario:
`{data: {orderForm: {items: [{id: "sku1"}]}}, errors: []}`. -/
def itemsQueryOk :
    QueryVars → String →
      Option (GraphQLResponse GraphQLError (OrderFormData (ItemsField PartialItem))) :=
  fun _ _ => some ⟨some ⟨⟨[⟨"sku1"⟩]⟩⟩, some []⟩

/-- Transport fixture for the update-cart failure scenario:
`{data: null, errors: [{message: "out of stock"}]}`. -/
def updateMutateErr :
    UpdateCartVars ItemInput → String →
      Option (GraphQLResponse GraphQLError (OrderFormData (ItemsField PartialItem))) :=
  fun _ _ => some ⟨none, some [⟨"out of stock"⟩]⟩

/-- Transport fixture: items query answered with empty errors and
absent data. -/
def itemsQueryNoData :
    QueryVars → String →
      Option (GraphQLResponse GraphQLError (OrderFormData (ItemsField PartialItem))) :=
  fun _ _ => some ⟨none, some []⟩

/-- Transport fixture: order-form query answered with absent errors and
absent data. -/
def orderFormQueryNoData :
    QueryVars → String →
      Option (GraphQLResponse GraphQLError (OrderFormData (ItemsField PartialItem))) :=
  fun _ _ => some ⟨none, none⟩

/-- Transport fixture: update mutation answered with empty errors and
absent data. -/
def updateMutateNoData :
    UpdateCartVars ItemInput → String →
      Option (GraphQLResponse GraphQLError (OrderFormData (ItemsField PartialItem))) :=
  fun _ _ => some ⟨none, some []⟩

/-- Store fixture that always throws a failure with embedded status
404. -/
def store404 : String → String → Bool → Except StoreError XCartValue :=
  fun _ _ _ => Except.error ⟨some ⟨some 404⟩⟩

/-- Store fixture that always throws a failure with embedded status
500. -/
def store500 : String → String → Bool → Except StoreError XCartValue :=
  fun _ _ _ => Except.error ⟨some ⟨some 500⟩⟩

/-- Store fixture that always yields the record orderformId = of-1. -/
def storeOk : String → String → Bool → Except StoreError XCartValue :=
  fun _ _ _ => Except.ok ⟨some "of-1"⟩

/-- Claim C1: for every GraphQL response whose errors sequence is
non-empty, the normalizer fails with a classified error whose message
is exactly the given context message and whose causes are exactly the
response error list, regardless of whether data is also populated. -/
theorem throwOnGraphQLErrors_nonempty_errors {E T : Type} (message : String)
    (r : GraphQLResponse E T) (es : List E)
    (he : r.errors = some es) (hne : es ≠ []) :
    throwOnGraphQLErrors message (some r) = Except.error ⟨message, es⟩ := by
  obtain ⟨d, errs⟩ := r
  cases he
  simp [throwOnGraphQLErrors, List.length_pos.mpr hne]

/-- Witness for C1: a response with populated data and one error entry
is classified with that entry as the sole cause. -/
theorem throwOnGraphQLErrors_nonempty_errors_witness :
    throwOnGraphQLErrors "boom-context"
        (some (⟨some "payload", some [⟨"boom"⟩]⟩ : GraphQLResponse GraphQLError String))
      = Except.error ⟨"boom-context", [⟨"boom"⟩]⟩ :=
  throwOnGraphQLErrors_nonempty_errors "boom-context" _ _ rfl (by decide)

/-- Claim C2: for every GraphQL response whose errors sequence is
empty or absent, the normalizer returns the response unchanged. -/
theorem throwOnGraphQLErrors_no_errors_identity {E T : Type} (message : String)
    (r : GraphQLResponse E T) (h : r.errors = none ∨ r.errors = some []) :
    throwOnGraphQLErrors message (some r) = Except.ok (some r) := by
  obtain ⟨d, errs⟩ := r
  rcases h with h | h <;> cases h <;> simp [throwOnGraphQLErrors]

/-- Witness for C2: a response carrying data and an empty error list
passes through unchanged. -/
theorem throwOnGraphQLErrors_no_errors_identity_witness :
    throwOnGraphQLErrors "ctx"
        (some (⟨some "payload", some []⟩ : GraphQLResponse GraphQLError String))
      = Except.ok (some ⟨some "payload", some []⟩) :=
  throwOnGraphQLErrors_no_errors_identity "ctx" _ (Or.inr rfl)

/-- Claim C9: the normalizer is a pure, deterministic function of its
inputs: equal responses and equal context messages give equal outcomes
(same returned response, or same classified error message and causes);
side effects are absent by construction. -/
theorem throwOnGraphQLErrors_deterministic {E T : Type}
    (m1 m2 : String) (r1 r2 : Option (GraphQLResponse E T))
    (hm : m1 = m2) (hr : r1 = r2) :
    throwOnGraphQLErrors m1 r1 = throwOnGraphQLErrors m2 r2 := by
  rw [hm, hr]

/-- Witness for C9: two invocations on the same concrete error-bearing
response agree. -/
theorem throwOnGraphQLErrors_deterministic_witness :
    throwOnGraphQLErrors "ctx2"
        (some (⟨none, some [⟨"x"⟩]⟩ : GraphQLResponse GraphQLError String))
      = throwOnGraphQLErrors "ctx2" (some ⟨none, some [⟨"x"⟩]⟩) :=
  throwOnGraphQLErrors_deterministic "ctx2" "ctx2" _ _ rfl rfl

/-- Claim C10: the normalizer raises an error if and only if the
response is present and its errors sequence is present and non-empty;
in particular a null response is returned unchanged, never classified
as a GraphQL operation error. -/
theorem throwOnGraphQLErrors_error_iff {E T : Type} (message : String)
    (resp : Option (GraphQLResponse E T)) :
    ((∃ e, throwOnGraphQLErrors message resp = Except.error e) ↔
      ∃ r es, resp = some r ∧ r.errors = some es ∧ es ≠ []) ∧
    throwOnGraphQLErrors message (none : Option (GraphQLResponse E T))
      = Except.ok none := by
  constructor
  · constructor
    · rintro ⟨e, he⟩
      match resp with
      | none => simp [throwOnGraphQLErrors] at he
      | some ⟨d, none⟩ => simp [throwOnGraphQLErrors] at he
      | some ⟨d, some errs⟩ =>
        refine ⟨⟨d, some errs⟩, errs, rfl, rfl, ?_⟩
        intro h
        subst h
        simp [throwOnGraphQLErrors] at he
    · rintro ⟨r, es, rfl, hes, hne⟩
      obtain ⟨d, errs⟩ := r
      cases hes
      exact ⟨⟨message, es⟩, by simp [throwOnGraphQLErrors, List.length_pos.mpr hne]⟩
  · rfl

/-- Claim C6: for every transport response with an empty error list and
populated data, getOrderFormItems resolves to exactly the
data.orderForm.items sequence of that response. -/
theorem getOrderFormItems_success {E I : Type}
    (query : QueryVars → String → Option (GraphQLResponse E (OrderFormData (ItemsField I))))
    (orderFormId : String) (r : GraphQLResponse E (OrderFormData (ItemsField I)))
    (d : OrderFormData (ItemsField I))
    (hcall : query ⟨orderFormId⟩ checkoutOrderformMetric = some r)
    (herr : r.errors = some []) (hdata : r.data = some d) :
    getOrderFormItems query orderFormId = Except.ok d.orderForm.items := by
  obtain ⟨rd, errs⟩ := r
  cases herr
  cases hdata
  simp [getOrderFormItems, hcall, throwOnGraphQLErrors]

/-- Witness for C6, the spec scenario: the transport returns
data.orderForm.items = [sku1] with errors = [], and the wrapper
resolves to [sku1]. -/
theorem getOrderFormItems_success_witness :
    getOrderFormItems itemsQueryOk "of-1" = Except.ok [⟨"sku1"⟩] :=
  getOrderFormItems_success itemsQueryOk "of-1" _ _ rfl rfl rfl

/-- Claim C5: when the transport returns an error-bearing response to
updateCart, the wrapper rejects with a classified error whose causes
equal exactly that error list and whose message is the fixed
update-cart context string. -/
theorem updateCart_graphQLErrors {E F J : Type}
    (mutate : UpdateCartVars J → String → Option (GraphQLResponse E (OrderFormData F)))
    (orderFormId : String) (items : List J)
    (r : GraphQLResponse E (OrderFormData F)) (es : List E)
    (hcall : mutate ⟨orderFormId, items⟩ checkoutUpdateItemsMetric = some r)
    (herr : r.errors = some es) (hne : es ≠ []) :
    updateCart mutate orderFormId items
      = Except.error (WrapperError.graphQL ⟨updateCartMessage, es⟩) := by
  obtain ⟨rd, errs⟩ := r
  cases herr
  simp [updateCart, hcall, throwOnGraphQLErrors, List.length_pos.mpr hne]

/-- Witness for C5, the spec scenario: updateCart on a response with
null data and errors = [out of stock] rejects with the update context
message and that single cause. -/
theorem updateCart_graphQLErrors_witness :
    updateCart updateMutateErr "of-1" [⟨some "sku1", some 2⟩]
      = Except.error (WrapperError.graphQL ⟨updateCartMessage, [⟨"out of stock"⟩]⟩) :=
  updateCart_graphQLErrors updateMutateErr "of-1" [⟨some "sku1", some 2⟩] _ _
    rfl rfl (by decide)

/-- Claim C7: for each of the three call wrappers, a transport response
with no errors but absent data makes the wrapper fail with the
projection TypeError (fatal, not converted into a null result). -/
theorem wrappers_missingData {E I F J : Type}
    (query1 : QueryVars → String → Option (GraphQLResponse E (OrderFormData (ItemsField I))))
    (query2 : QueryVars → String → Option (GraphQLResponse E (OrderFormData F)))
    (mutate : UpdateCartVars J → String → Option (GraphQLResponse E (OrderFormData F)))
    (orderFormId : String) (items : List J)
    (r1 : GraphQLResponse E (OrderFormData (ItemsField I)))
    (r2 r3 : GraphQLResponse E (OrderFormData F))
    (hc1 : query1 ⟨orderFormId⟩ checkoutOrderformMetric = some r1)
    (hc2 : query2 ⟨orderFormId⟩ checkoutOrderformMetric = some r2)
    (hc3 : mutate ⟨orderFormId, items⟩ checkoutUpdateItemsMetric = some r3)
    (he1 : r1.errors = none ∨ r1.errors = some [])
    (he2 : r2.errors = none ∨ r2.errors = some [])
    (he3 : r3.errors = none ∨ r3.errors = some [])
    (hd1 : r1.data = none) (hd2 : r2.data = none) (hd3 : r3.data = none) :
    getOrderFormItems query1 orderFormId = Except.error WrapperError.typeError ∧
    getOrderForm query2 orderFormId = Except.error WrapperError.typeError ∧
    updateCart mutate orderFormId items = Except.error WrapperError.typeError := by
  obtain ⟨d1, e1⟩ := r1
  obtain ⟨d2, e2⟩ := r2
  obtain ⟨d3, e3⟩ := r3
  cases hd1
  cases hd2
  cases hd3
  refine ⟨?_, ?_, ?_⟩
  · rcases he1 with h | h <;> cases h <;>
      simp [getOrderFormItems, hc1, throwOnGraphQLErrors]
  · rcases he2 with h | h <;> cases h <;>
      simp [getOrderForm, hc2, throwOnGraphQLErrors]
  · rcases he3 with h | h <;> cases h <;>
      simp [updateCart, hc3, throwOnGraphQLErrors]

/-- Witness for C7: all three wrappers fail with the projection
TypeError on concrete no-error, no-data responses. -/
theorem wrappers_missingData_witness :
    getOrderFormItems itemsQueryNoData "of-1" = Except.error WrapperError.typeError ∧
    getOrderForm orderFormQueryNoData "of-1" = Except.error WrapperError.typeError ∧
    updateCart updateMutateNoData "of-1" [⟨some "sku1", some 2⟩]
      = Except.error WrapperError.typeError :=
  wrappers_missingData itemsQueryNoData orderFormQueryNoData updateMutateNoData
    "of-1" _ _ _ _ rfl rfl rfl (Or.inr rfl) (Or.inl rfl) (Or.inr rfl) rfl rfl rfl

/-- Claim C3: every store-lookup failure whose embedded status equals
exactly 404 makes getXCart resolve to null without propagating an
error. -/
theorem getXCart_notFound
    (getJSON : String → String → Bool → Except StoreError XCartValue)
    (userId : String) (err : StoreError)
    (hcall : getJSON crossDeviceCartBucket userId true = Except.error err)
    (hstatus : embeddedStatus err = some 404) :
    getXCart getJSON userId = Except.ok none := by
  simp [getXCart, hcall, hstatus]

/-- Witness for C3, the spec scenario: the store throws a failure with
embedded status 404 and getXCart resolves to null. -/
theorem getXCart_notFound_witness : getXCart store404 "user-42" = Except.ok none :=
  getXCart_notFound store404 "user-42" ⟨some ⟨some 404⟩⟩ rfl rfl

/-- Claim C4: every store-lookup failure whose embedded status is not
404, or that carries no embedded status at all, is re-raised by getXCart
as the original error value unchanged. -/
theorem getXCart_propagates
    (getJSON : String → String → Bool → Except StoreError XCartValue)
    (userId : String) (err : StoreError)
    (hcall : getJSON crossDeviceCartBucket userId true = Except.error err)
    (hstatus : embeddedStatus err ≠ some 404) :
    getXCart getJSON userId = Except.error err := by
  simp [getXCart, hcall, hstatus]

/-- Witness for C4, the spec scenario: the store throws a failure with
embedded status 500 and getXCart rejects with that same error value. -/
theorem getXCart_propagates_witness :
    getXCart store500 "user-42" = Except.error ⟨some ⟨some 500⟩⟩ :=
  getXCart_propagates store500 "user-42" ⟨some ⟨some 500⟩⟩ rfl (by decide)

/-- Claim C8: on a successful lookup, getXCart calls the key-value
capability with the fixed namespace string, the given userId as key and
the JSON-deserialization flag set, and returns the deserialized value
exactly as received. -/
theorem getXCart_success
    (getJSON : String → String → Bool → Except StoreError XCartValue)
    (userId : String) (v : XCartValue)
    (hcall : getJSON crossDeviceCartBucket userId true = Except.ok v) :
    getXCart getJSON userId = Except.ok (some v) := by
  simp [getXCart, hcall]

/-- Witness for C8: a store yielding the record orderformId = of-1 at
namespace vtex.cross-device-cart, key user-42, parse flag true, makes
getXCart return that record untouched. -/
theorem getXCart_success_witness :
    getXCart storeOk "user-42" = Except.ok (some ⟨some "of-1"⟩) :=
  getXCart_success storeOk "user-42" ⟨some "of-1"⟩ rfl

end CrossDeviceCart
